import Mathlib

/-!
Shallow embedding of the DCF valuation core of the repository
(src/dcf_calculator.py and the sensitivity formula of src/DCF.py).

Python floats are modelled by exact rationals (ℚ).  A Python dict keyed by
fiscal period, ordered most recent first, is modelled by a list of rationals
in the same order (the data-model invariant guarantees every period present
in `revenue` has an aligned entry in every other field).  An unhandled
Python exception (ZeroDivisionError, TypeError, IndexError) is modelled by
`none` / a degenerate constructor, as noted on each definition.
-/

namespace DCF

/-- Model of `financial_data` as produced by `FinancialDataFetcher.get_key_metrics`,
restricted to the fields the valuation functions read.  Each list is ordered
most recent period first. -/
structure FinancialData where
  revenue : List ℚ
  ebit : List ℚ
  tax_expense : List ℚ
  capex : List ℚ
  total_debt : List ℚ
  cash : List ℚ
  deriving DecidableEq, Repr

/-- Model of `market_data` as produced by `FinancialDataFetcher.get_market_data`. -/
structure MarketData where
  market_cap : ℚ
  shares_outstanding : ℚ
  current_price : ℚ
  beta : ℚ
  deriving DecidableEq, Repr

/-- The dict returned by `WACCCalculator.calculate_wacc` on its normal path. -/
structure WaccBreakdown where
  wacc : ℚ
  cost_of_equity : ℚ
  cost_of_debt : ℚ
  weight_equity : ℚ
  weight_debt : ℚ
  beta : ℚ
  deriving DecidableEq, Repr

/-- Result type of `calculate_wacc`: either the bare cost-of-equity number
(the `total_value == 0` early return at line 135) or the breakdown dict. -/
inductive WaccResult where
  | scalar (cost_of_equity : ℚ)
  | breakdown (b : WaccBreakdown)
  deriving DecidableEq, Repr

/-- Model of `WACCCalculator._estimate_cost_of_debt`: a fixed 5% estimate. -/
def estimate_cost_of_debt : ℚ := 5 / 100

/-- Model of `WACCCalculator.calculate_wacc`.  `risk_free_rate` and
`market_risk_premium` are the constructor parameters (defaults 0.045 and
0.065, overridable per request by the dashboard callback).  `none` models
the IndexError raised by `list(financial_data['total_debt'].keys())[0]`
when no period exists. -/
def calculate_wacc (risk_free_rate market_risk_premium : ℚ)
    (financial_data : FinancialData) (market_data : MarketData)
    (tax_rate : ℚ) : Option WaccResult :=
  let cost_of_equity := risk_free_rate + market_data.beta * market_risk_premium
  match financial_data.total_debt with
  | [] => none
  | d :: _ =>
    let total_debt := |d|
    let market_value_equity := market_data.market_cap
    let total_value := total_debt + market_value_equity
    if total_value = 0 then
      some (.scalar cost_of_equity)
    else
      let weight_equity := market_value_equity / total_value
      let weight_debt := total_debt / total_value
      let cost_of_debt := estimate_cost_of_debt
      let wacc := weight_equity * cost_of_equity +
        weight_debt * cost_of_debt * (1 - tax_rate)
      some (.breakdown
        { wacc := wacc
          cost_of_equity := cost_of_equity
          cost_of_debt := cost_of_debt
          weight_equity := weight_equity
          weight_debt := weight_debt
          beta := market_data.beta })

/-- Model of `np.mean` of a list (meaningful only on nonempty lists, as in the
source, where every call is guarded by a nonemptiness test). -/
def mean (l : List ℚ) : ℚ := l.sum / l.length

/-- The `revenue_growth_rates` loop of `calculate_historical_averages`
(lines 188-192): walking the most-recent-first revenue list, for each
adjacent pair append `(revenues[i] - revenues[i+1]) / abs(revenues[i+1])`
when `revenues[i+1] != 0`. -/
def revenueGrowthRates : List ℚ → List ℚ
  | [] => []
  | a :: rest =>
    (match rest with
     | [] => []
     | b :: _ => if b = 0 then [] else [(a - b) / |b|]) ++
      revenueGrowthRates rest

/-- The record returned by `DCFModel.calculate_historical_averages`. -/
structure Averages where
  revenue_growth : ℚ
  ebit_margin : ℚ
  tax_rate : ℚ
  capex_ratio : ℚ
  deriving DecidableEq, Repr

/-- Model of `DCFModel.calculate_historical_averages` (lines 179-226).  The loops
over `self.financial_data['revenue'].keys()` become zips of the aligned
per-period lists. -/
def calculate_historical_averages (f : FinancialData) : Averages :=
  let revenue_growth_rates := revenueGrowthRates f.revenue
  let ebit_margins :=
    ((f.revenue.zip f.ebit).filter (fun p => decide (p.1 ≠ 0))).map
      (fun p => p.2 / p.1)
  let tax_rates :=
    ((f.ebit.zip f.tax_expense).filter (fun p => decide (0 < p.1))).map
      (fun p => |p.2| / p.1)
  let capex_ratios :=
    ((f.revenue.zip f.capex).filter (fun p => decide (p.1 ≠ 0))).map
      (fun p => |p.2| / p.1)
  { revenue_growth :=
      if revenue_growth_rates = [] then 5 / 100 else mean revenue_growth_rates
    ebit_margin := if ebit_margins = [] then 15 / 100 else mean ebit_margins
    tax_rate := if tax_rates = [] then 25 / 100 else mean tax_rates
    capex_ratio := if capex_ratios = [] then 5 / 100 else mean capex_ratios }

/-- One entry of the projection list built by `DCFModel.project_cash_flows`. -/
structure Projection where
  year : ℕ
  revenue : ℚ
  ebit : ℚ
  nopat : ℚ
  capex : ℚ
  depreciation : ℚ
  change_in_wc : ℚ
  fcf : ℚ
  deriving DecidableEq, Repr

/-- The body of the projection loop (lines 239-270) for one year. -/
def projectYear (base_revenue : ℚ) (averages : Averages) (year : ℕ) :
    Projection :=
  let projected_revenue := base_revenue * (1 + averages.revenue_growth) ^ year
  let projected_ebit := projected_revenue * averages.ebit_margin
  let nopat := projected_ebit * (1 - averages.tax_rate)
  let projected_capex := projected_revenue * averages.capex_ratio
  let depreciation := projected_revenue * (3 / 100)
  let change_in_wc := projected_revenue * (2 / 100)
  let fcf := nopat + depreciation - projected_capex - change_in_wc
  { year := year
    revenue := projected_revenue
    ebit := projected_ebit
    nopat := nopat
    capex := projected_capex
    depreciation := depreciation
    change_in_wc := change_in_wc
    fcf := fcf }

/-- Model of `DCFModel.project_cash_flows` (lines 228-272).  `none` models the
IndexError of `list(self.financial_data['revenue'].values())[0]` when no
period exists.  The loop `for year in range(1, projection_years + 1)`
becomes a map over `List.range`. -/
def project_cash_flows (f : FinancialData) (projection_years : ℕ) :
    Option (List Projection) :=
  let averages := calculate_historical_averages f
  match f.revenue with
  | [] => none
  | base_revenue :: _ =>
    some ((List.range projection_years).map
      (fun k => projectYear base_revenue averages (k + 1)))

/-- Model of `DCFModel.calculate_terminal_value` (lines 274-277): the raw
perpetual-growth division with no spread check.  `none` models the
ZeroDivisionError raised when `wacc == terminal_growth_rate`. -/
def calculate_terminal_value (terminal_growth_rate final_fcf wacc : ℚ) :
    Option ℚ :=
  if wacc - terminal_growth_rate = 0 then none
  else some (final_fcf * (1 + terminal_growth_rate) / (wacc - terminal_growth_rate))

/-- The dict returned by `DCFModel.calculate_dcf_valuation`. -/
structure ValuationResult where
  enterprise_value : ℚ
  equity_value : ℚ
  value_per_share : ℚ
  current_price : ℚ
  upside_downside : ℚ
  wacc : ℚ
  terminal_value : ℚ
  pv_terminal_value : ℚ
  pv_cash_flows : ℚ
  projections : List Projection
  wacc_breakdown : WaccBreakdown
  assumptions : Averages
  deriving DecidableEq, Repr

/-- Model of `DCFModel.calculate_dcf_valuation` (lines 279-337), parametrised by the
constructor inputs (`projection_years`, `terminal_growth_rate`) and the
WACC-calculator rates.  `none` models each unhandled failure path:
the TypeError of `wacc_data['wacc']` when `calculate_wacc` returned the bare
float, the `if not projections: return None` guard, the ZeroDivisionError of
the present-value divisions when `1 + wacc == 0`, the ZeroDivisionError
inside `calculate_terminal_value`, and missing balance-sheet periods. -/
def calculate_dcf_valuation (risk_free_rate market_risk_premium : ℚ)
    (projection_years : ℕ) (terminal_growth_rate : ℚ)
    (f : FinancialData) (m : MarketData) : Option ValuationResult :=
  let averages := calculate_historical_averages f
  match calculate_wacc risk_free_rate market_risk_premium f m averages.tax_rate with
  | none => none
  | some (.scalar _) => none
  | some (.breakdown wacc_data) =>
    let wacc := wacc_data.wacc
    match project_cash_flows f projection_years with
    | none => none
    | some projections =>
      if projections = [] then none
      else if 1 + wacc = 0 then none
      else
        let pv_cash_flows :=
          (projections.map (fun p => p.fcf / (1 + wacc) ^ p.year)).sum
        let final_fcf := (projections.getLastD (projectYear 0 averages 0)).fcf
        match calculate_terminal_value terminal_growth_rate final_fcf wacc with
        | none => none
        | some terminal_value =>
          let pv_terminal_value := terminal_value / (1 + wacc) ^ projection_years
          let enterprise_value := pv_cash_flows + pv_terminal_value
          match f.total_debt, f.cash with
          | latest_debt :: _, latest_cash :: _ =>
            let net_debt := latest_debt - latest_cash
            let equity_value := enterprise_value - net_debt
            let value_per_share :=
              if m.shares_outstanding > 0 then equity_value / m.shares_outstanding
              else 0
            let current_price := m.current_price
            some
              { enterprise_value := enterprise_value
                equity_value := equity_value
                value_per_share := value_per_share
                current_price := current_price
                upside_downside :=
                  if current_price > 0 then
                    (value_per_share - current_price) / current_price
                  else 0
                wacc := wacc
                terminal_value := terminal_value
                pv_terminal_value := pv_terminal_value
                pv_cash_flows := pv_cash_flows
                projections := projections
                wacc_breakdown := wacc_data
                assumptions := averages }
          | _, _ => none

/-- The WACC offset term of the sensitivity grid in
`update_sensitivity_chart` (src/DCF.py line 375). -/
def wacc_impact (base_value base_wacc grid_wacc : ℚ) : ℚ :=
  (base_wacc - grid_wacc) / base_wacc * base_value * (5 / 10)

/-- The terminal-growth offset term of the sensitivity grid
(src/DCF.py line 376); the reference growth is the hardcoded 0.025. -/
def terminal_impact (base_value grid_terminal_growth : ℚ) : ℚ :=
  (grid_terminal_growth - 25 / 1000) / (25 / 1000) * base_value * (3 / 10)

/-- The adjusted grid value of `update_sensitivity_chart`
(src/DCF.py line 377). -/
def sensitivity_adjusted_value (base_value base_wacc grid_wacc
    grid_terminal_growth : ℚ) : ℚ :=
  base_value + wacc_impact base_value base_wacc grid_wacc +
    terminal_impact base_value grid_terminal_growth

/-- Spec-side description of the revenue-growth walk, amended to the
denominator the code actually uses: walking the revenue history from
oldest to newest, for each adjacent pair (older, newer) with the older
period's revenue nonzero, collect `(newer - older) / |older|`. -/
def growthRatesOldestToNewest : List ℚ → List ℚ
  | [] => []
  | older :: rest =>
    (match rest with
     | [] => []
     | newer :: _ => if older = 0 then [] else [(newer - older) / |older|]) ++
      growthRatesOldestToNewest rest

/-- Concrete two-period history for C4: newest revenue 100, older revenue
-50.  All other line items zero. -/
def exC4 : FinancialData :=
  { revenue := [100, -50], ebit := [0, 0], tax_expense := [0, 0]
    capex := [0, 0], total_debt := [0, 0], cash := [0, 0] }

/-- Concrete history for C2's witness: two periods of revenue 100 and 80,
EBIT 20 and 16, tax expense 5 and 4, capex 10 and 8. -/
def exC2 : FinancialData :=
  { revenue := [100, 80], ebit := [20, 16], tax_expense := [5, 4]
    capex := [10, 8], total_debt := [30, 25], cash := [12, 9] }

/-- Concrete history for C3's failing input: a single period with every
line item zero, so the latest total debt is 0. -/
def exC3 : FinancialData :=
  { revenue := [0], ebit := [0], tax_expense := [0]
    capex := [0], total_debt := [0], cash := [0] }

/-- Market data for C3's failing input: market capitalization 0 (so the
total capital value is 0), beta 1. -/
def exC3m : MarketData :=
  { market_cap := 0, shares_outstanding := 10, current_price := 50, beta := 1 }

/-- Concrete history for C5: every period's revenue is zero, yet one
period has strictly positive EBIT (10) with tax expense 5. -/
def exC5 : FinancialData :=
  { revenue := [0, 0], ebit := [10, 0], tax_expense := [5, 0]
    capex := [0, 0], total_debt := [0, 0], cash := [0, 0] }

/-- Concrete history for C5's witness: zero revenue everywhere and no
period with strictly positive EBIT. -/
def exC5w : FinancialData :=
  { revenue := [0, 0], ebit := [0, -5], tax_expense := [3, 0]
    capex := [1, 2], total_debt := [0, 0], cash := [0, 0] }

/-- Concrete history for C6's counterexample: one period, revenue 100,
everything else zero. -/
def exC6 : FinancialData :=
  { revenue := [100], ebit := [0], tax_expense := [0]
    capex := [0], total_debt := [0], cash := [0] }

/-- Market data for C6's counterexample: zero shares outstanding and zero
current price, beta 0, market capitalization 100. -/
def exC6m : MarketData :=
  { market_cap := 100, shares_outstanding := 0, current_price := 0, beta := 0 }

/-- Market data for C6's witness: zero shares outstanding and zero current
price, beta 1, market capitalization 100 (the valuation pipeline succeeds
with the default rates). -/
def exC6wm : MarketData :=
  { market_cap := 100, shares_outstanding := 0, current_price := 0, beta := 1 }

/-- Concrete history for C9: one period with revenue 100, EBIT 20, tax
expense 5, capex 10. -/
def exC9 : FinancialData :=
  { revenue := [100], ebit := [20], tax_expense := [5]
    capex := [10], total_debt := [0], cash := [0] }

/-- Market data for C9: nonzero market capitalization, beta 1. -/
def exC9m : MarketData :=
  { market_cap := 1000, shares_outstanding := 10, current_price := 50, beta := 1 }

/-- Concrete history for C10's witness: latest total debt is reported as
-50 (entering the weights as 50). -/
def exC10 : FinancialData :=
  { revenue := [100], ebit := [20], tax_expense := [5]
    capex := [10], total_debt := [-50], cash := [0] }

/-- Market data for C10's witness: market capitalization 100. -/
def exC10m : MarketData :=
  { market_cap := 100, shares_outstanding := 10, current_price := 50, beta := 1 }

end DCF

open DCF

/-! ## Theorems -/

/-- C1 counterexample: with final-year FCF 100, WACC 0.01 and terminal
growth 0.025 we have WACC ≤ terminal growth, yet `calculate_terminal_value`
returns the computed (negative) value -20500/3 instead of signalling
`InvalidDiscountSpread`. -/
theorem c1_counterexample :
    (1 / 100 : ℚ) ≤ 25 / 1000 ∧
    calculate_terminal_value (25 / 1000) 100 (1 / 100) = some (-20500 / 3) ∧
    (-20500 / 3 : ℚ) < 0 := by
  refine ⟨by norm_num, ?_, by norm_num⟩
  norm_num [calculate_terminal_value]

/-- C1 (amended): `calculate_terminal_value` performs no discount-spread
check.  When WACC ≤ terminal growth it never signals a typed
`InvalidDiscountSpread`: at WACC = terminal growth it fails with an
unhandled division-by-zero, and at WACC < terminal growth it returns the
computed value FCF·(1+g)/(WACC−g), which is negative whenever the FCF is
positive and g > -1. -/
theorem c1_no_spread_check (g fcf wacc : ℚ) (hle : wacc ≤ g) :
    (wacc = g → calculate_terminal_value g fcf wacc = none) ∧
    (wacc < g →
      calculate_terminal_value g fcf wacc = some (fcf * (1 + g) / (wacc - g)) ∧
      (0 < fcf → -1 < g → fcf * (1 + g) / (wacc - g) < 0)) := by
  constructor
  · intro he
    simp [calculate_terminal_value, he]
  · intro hlt
    refine ⟨?_, ?_⟩
    · simp [calculate_terminal_value, sub_eq_zero, hlt.ne]
    · intro hf hg
      apply div_neg_of_pos_of_neg
      · have : (0 : ℚ) < 1 + g := by linarith
        exact mul_pos hf this
      · linarith

/-- C1 witness: the amended statement applied at g = 0.025, FCF = 100,
WACC = 0.01. -/
theorem c1_no_spread_check_witness :
    calculate_terminal_value (25 / 1000) 100 (1 / 100) =
      some (100 * (1 + 25 / 1000) / (1 / 100 - 25 / 1000)) :=
  ((c1_no_spread_check (25 / 1000) 100 (1 / 100) (by norm_num)).2
    (by norm_num)).1

/-- C3: at the failing input (market capitalization 0, latest total debt 0)
`calculate_wacc` returns the bare cost-of-equity number (0.045 + 1×0.065 =
0.11), not a DiscountRateBreakdown record, and the in-repo caller
`calculate_dcf_valuation` consequently fails (it subscripts the float). -/
theorem c3_zero_capital_scalar_eval :
    calculate_wacc (45 / 1000) (65 / 1000) exC3 exC3m (25 / 100) =
      some (WaccResult.scalar (11 / 100)) ∧
    calculate_dcf_valuation (45 / 1000) (65 / 1000) 5 (25 / 1000) exC3 exC3m =
      none := by
  constructor
  · norm_num [calculate_wacc, exC3, exC3m]
  · with_unfolding_all decide

/-- C7: for any WACC distinct from the terminal growth rate the terminal
value equals FCF_N × (1 + g_terminal) / (WACC − g_terminal); at the
specific input FCF = 100, WACC = 0.10, g = 0.025 the value is 4100/3,
within 0.01 of 1366.67. -/
theorem c7_terminal_value_formula (final_fcf wacc g : ℚ) (h : wacc ≠ g) :
    calculate_terminal_value g final_fcf wacc =
      some (final_fcf * (1 + g) / (wacc - g)) ∧
    calculate_terminal_value (25 / 1000) 100 (10 / 100) = some (4100 / 3) ∧
    |(4100 / 3 : ℚ) - 136667 / 100| ≤ 1 / 100 := by
  refine ⟨?_, ?_, by rw [abs_le]; constructor <;> norm_num⟩
  · simp [calculate_terminal_value, sub_eq_zero, h]
  · norm_num [calculate_terminal_value]

/-- C7 witness: the formula applied at FCF = 100, WACC = 0.10, g = 0.025. -/
theorem c7_terminal_value_formula_witness :
    calculate_terminal_value (25 / 1000) 100 (10 / 100) =
      some (100 * (1 + 25 / 1000) / (10 / 100 - 25 / 1000)) :=
  (c7_terminal_value_formula 100 (10 / 100) (25 / 1000) (by norm_num)).1

/-- C8: at the grid point whose WACC equals the base WACC and whose
terminal growth equals the reference growth 0.025, both offset terms of
the sensitivity adjustment are zero and the adjusted value equals the base
value per share exactly. -/
theorem c8_sensitivity_identity_at_base (base_value base_wacc : ℚ)
    (h : base_wacc ≠ 0) :
    wacc_impact base_value base_wacc base_wacc = 0 ∧
    terminal_impact base_value (25 / 1000) = 0 ∧
    sensitivity_adjusted_value base_value base_wacc base_wacc (25 / 1000) =
      base_value := by
  refine ⟨?_, ?_, ?_⟩ <;>
    simp [wacc_impact, terminal_impact, sensitivity_adjusted_value]

/-- C8 witness: the identity at base value 7 and base WACC 0.10. -/
theorem c8_sensitivity_identity_at_base_witness :
    wacc_impact 7 (10 / 100) (10 / 100) = 0 ∧
    terminal_impact 7 (25 / 1000) = 0 ∧
    sensitivity_adjusted_value 7 (10 / 100) (10 / 100) (25 / 1000) = 7 :=
  c8_sensitivity_identity_at_base 7 (10 / 100) (by norm_num)

/-- C10: when the market capitalization is non-negative and the total
capital value (absolute latest total debt plus market capitalization) is
nonzero, `calculate_wacc` returns a breakdown whose equity and debt
weights each lie in [0,1] and sum exactly to 1. -/
theorem c10_weights_partition (rf mrp t d : ℚ) (rest : List ℚ)
    (f : FinancialData) (m : MarketData) (hd : f.total_debt = d :: rest)
    (hmc : 0 ≤ m.market_cap) (hnz : |d| + m.market_cap ≠ 0) :
    ∃ b, calculate_wacc rf mrp f m t = some (WaccResult.breakdown b) ∧
      b.weight_equity + b.weight_debt = 1 ∧
      0 ≤ b.weight_equity ∧ b.weight_equity ≤ 1 ∧
      0 ≤ b.weight_debt ∧ b.weight_debt ≤ 1 := by
  have hpos : (0 : ℚ) < |d| + m.market_cap :=
    lt_of_le_of_ne (add_nonneg (abs_nonneg d) hmc) (Ne.symm hnz)
  have heq : calculate_wacc rf mrp f m t = some (WaccResult.breakdown
      { wacc := m.market_cap / (|d| + m.market_cap) * (rf + m.beta * mrp) +
          |d| / (|d| + m.market_cap) * estimate_cost_of_debt * (1 - t)
        cost_of_equity := rf + m.beta * mrp
        cost_of_debt := estimate_cost_of_debt
        weight_equity := m.market_cap / (|d| + m.market_cap)
        weight_debt := |d| / (|d| + m.market_cap)
        beta := m.beta }) := by
    simp only [calculate_wacc, hd]
    rw [if_neg hnz]
  refine ⟨_, heq, ?_, ?_, ?_, ?_, ?_⟩
  · rw [div_add_div_same, add_comm m.market_cap |d|, div_self hnz]
  · exact div_nonneg hmc hpos.le
  · exact (div_le_one hpos).mpr (le_add_of_nonneg_left (abs_nonneg d))
  · exact div_nonneg (abs_nonneg d) hpos.le
  · exact (div_le_one hpos).mpr (le_add_of_nonneg_right hmc)

/-- C10 witness: the weights partition at a reported latest total debt of
-50 and market capitalization 100. -/
theorem c10_weights_partition_witness :
    ∃ b, calculate_wacc (45 / 1000) (65 / 1000) exC10 exC10m (25 / 100) =
        some (WaccResult.breakdown b) ∧
      b.weight_equity + b.weight_debt = 1 ∧
      0 ≤ b.weight_equity ∧ b.weight_equity ≤ 1 ∧
      0 ≤ b.weight_debt ∧ b.weight_debt ≤ 1 :=
  c10_weights_partition (45 / 1000) (65 / 1000) (25 / 100) (-50) []
    exC10 exC10m rfl (by norm_num [exC10m]) (by norm_num [exC10m])

/-- Auxiliary for C4: extending an oldest-first history by two final
periods appends the corresponding growth ratio. -/
theorem growthRatesOldestToNewest_append_pair (l : List ℚ) (b a : ℚ) :
    growthRatesOldestToNewest (l ++ [b, a]) =
      growthRatesOldestToNewest (l ++ [b]) ++
        (if b = 0 then [] else [(a - b) / |b|]) := by
  induction l with
  | nil => simp [growthRatesOldestToNewest]
  | cons x t ih =>
    cases t with
    | nil => simp [growthRatesOldestToNewest]
    | cons y t' =>
      have e1 : growthRatesOldestToNewest ((x :: y :: t') ++ [b, a]) =
          (if x = 0 then [] else [(y - x) / |x|]) ++
            growthRatesOldestToNewest ((y :: t') ++ [b, a]) := rfl
      have e2 : growthRatesOldestToNewest ((x :: y :: t') ++ [b]) =
          (if x = 0 then [] else [(y - x) / |x|]) ++
            growthRatesOldestToNewest ((y :: t') ++ [b]) := rfl
      rw [e1, e2, ih, List.append_assoc]

/-- Auxiliary for C4: the spec's oldest-to-newest walk over the reversed
history produces exactly the reverse of the code's newest-to-oldest walk. -/
theorem growthRates_reverse (l : List ℚ) :
    growthRatesOldestToNewest l.reverse = (revenueGrowthRates l).reverse := by
  induction l with
  | nil => rfl
  | cons a t ih =>
    cases t with
    | nil => rfl
    | cons b rest =>
      have h1 : (a :: b :: rest).reverse = rest.reverse ++ [b, a] := by
        simp
      rw [h1]
      have h2 : rest.reverse ++ [b] = (b :: rest).reverse := by simp
      rw [growthRatesOldestToNewest_append_pair, h2, ih]
      simp only [revenueGrowthRates, List.reverse_append]
      rcases eq_or_ne b 0 with hb | hb <;> simp [hb]
  

/-- C4 counterexample: with revenue history [100, -50] (newest first) the
code's average growth is (100 - (-50)) / |-50| = 3, while the claim's
formula (newer - older) / older gives -3. -/
theorem c4_counterexample :
    (calculate_historical_averages exC4).revenue_growth = 3 ∧
    ((100 : ℚ) - -50) / -50 = -3 ∧ (3 : ℚ) ≠ -3 := by
  refine ⟨by with_unfolding_all decide, by norm_num, by norm_num⟩

/-- C4 (amended): the computed average revenue growth equals the
arithmetic mean, over adjacent period pairs (older, newer) walked from
oldest to newest in which the older period's revenue is nonzero, of
(newer - older) divided by the ABSOLUTE VALUE of the older revenue;
pairs with zero older revenue are skipped and the fallback is 0.05. -/
theorem c4_growth_mean_abs_denominator (f : FinancialData) :
    (calculate_historical_averages f).revenue_growth =
      (if growthRatesOldestToNewest f.revenue.reverse = [] then 5 / 100
       else mean (growthRatesOldestToNewest f.revenue.reverse)) := by
  rw [growthRates_reverse f.revenue]
  simp only [calculate_historical_averages, mean, List.sum_reverse,
    List.length_reverse, List.reverse_eq_nil_iff]

/-- Auxiliary for C5: a revenue history of all zeros yields no growth
ratio. -/
theorem revenueGrowthRates_all_zero (l : List ℚ) (h : ∀ x ∈ l, x = 0) :
    revenueGrowthRates l = [] := by
  induction l with
  | nil => rfl
  | cons a t ih =>
    cases t with
    | nil => rfl
    | cons b rest =>
      have hb : b = 0 := h b (by simp)
      have ht : revenueGrowthRates (b :: rest) = [] :=
        ih (fun x hx => h x (List.mem_cons_of_mem a hx))
      show (if b = 0 then [] else [(a - b) / |b|]) ++
        revenueGrowthRates (b :: rest) = []
      rw [if_pos hb, ht]
      rfl

/-- C5 counterexample: every period's revenue is zero, yet one period has
strictly positive EBIT (10) with tax expense 5, so the tax rate is 1/2,
not the claimed fallback 0.25. -/
theorem c5_counterexample :
    (∀ r ∈ exC5.revenue, r = 0) ∧
    (calculate_historical_averages exC5).tax_rate = 1 / 2 ∧
    (1 / 2 : ℚ) ≠ 25 / 100 := by
  refine ⟨by with_unfolding_all decide, by with_unfolding_all decide,
    by norm_num⟩

/-- C5 (amended): when every period's revenue is zero, revenue growth,
EBIT margin and capex ratio fall back to 0.05, 0.15 and 0.05; the tax
rate falls back to 0.25 only when additionally no period has strictly
positive EBIT (its qualifying condition is on EBIT, not revenue). -/
theorem c5_all_zero_revenue_fallbacks (f : FinancialData)
    (hrev : ∀ r ∈ f.revenue, r = 0) :
    (calculate_historical_averages f).revenue_growth = 5 / 100 ∧
    (calculate_historical_averages f).ebit_margin = 15 / 100 ∧
    Averages.capex_ratio (calculate_historical_averages f) = 5 / 100 ∧
    ((∀ e ∈ f.ebit, ¬0 < e) →
      (calculate_historical_averages f).tax_rate = 25 / 100) := by
  have hg := revenueGrowthRates_all_zero f.revenue hrev
  have hmarg : (f.revenue.zip f.ebit).filter (fun p => decide (p.1 ≠ 0)) = [] := by
    rw [List.filter_eq_nil_iff]
    rintro ⟨a, b⟩ hp
    have ha := (List.of_mem_zip hp).1
    simp [hrev a ha]
  have hcap : (f.revenue.zip f.capex).filter (fun p => decide (p.1 ≠ 0)) = [] := by
    rw [List.filter_eq_nil_iff]
    rintro ⟨a, b⟩ hp
    have ha := (List.of_mem_zip hp).1
    simp [hrev a ha]
  refine ⟨?_, ?_, ?_, ?_⟩
  · simp [calculate_historical_averages, hg]
  · simp only [calculate_historical_averages]
    rw [hmarg]
    simp
  · simp only [calculate_historical_averages]
    rw [hcap]
    simp
  · intro hebit
    have htax : (f.ebit.zip f.tax_expense).filter (fun p => decide (0 < p.1)) = [] := by
      rw [List.filter_eq_nil_iff]
      rintro ⟨a, b⟩ hp
      have ha := (List.of_mem_zip hp).1
      simp [hebit a ha]
    simp only [calculate_historical_averages]
    rw [htax]
    simp

/-- C5 witness: the fallbacks at a two-period history with zero revenue
everywhere and no strictly positive EBIT. -/
theorem c5_all_zero_revenue_fallbacks_witness :
    (calculate_historical_averages exC5w).revenue_growth = 5 / 100 ∧
    (calculate_historical_averages exC5w).ebit_margin = 15 / 100 ∧
    Averages.capex_ratio (calculate_historical_averages exC5w) = 5 / 100 ∧
    (calculate_historical_averages exC5w).tax_rate = 25 / 100 := by
  have h := c5_all_zero_revenue_fallbacks exC5w (by with_unfolding_all decide)
  exact ⟨h.1, h.2.1, h.2.2.1, h.2.2.2 (by with_unfolding_all decide)⟩

/-- C2: for a nonempty revenue history with most recent revenue R0,
`project_cash_flows` returns exactly N entries, and the k-th entry (year
k+1) is the claimed closed form in R0 and the computed averages alone:
revenue = R0(1+g)^year, EBIT = revenue×margin, NOPAT = EBIT×(1−tax),
capex = revenue×capex ratio, depreciation = revenue×0.03, change in
working capital = revenue×0.02, FCF = NOPAT + depreciation − capex −
change in working capital; no prior year's values enter. -/
theorem c2_projection_closed_form (f : FinancialData) (n : ℕ) (r0 : ℚ)
    (rest : List ℚ) (h : f.revenue = r0 :: rest) :
    ∃ l, project_cash_flows f n = some l ∧ l.length = n ∧
      ∀ k, k < n → ∃ p, l[k]? = some p ∧
        p.year = k + 1 ∧
        p.revenue =
          r0 * (1 + (calculate_historical_averages f).revenue_growth) ^ (k + 1) ∧
        p.ebit = p.revenue * (calculate_historical_averages f).ebit_margin ∧
        p.nopat = p.ebit * (1 - (calculate_historical_averages f).tax_rate) ∧
        p.capex = p.revenue * Averages.capex_ratio (calculate_historical_averages f) ∧
        p.depreciation = p.revenue * (3 / 100) ∧
        p.change_in_wc = p.revenue * (2 / 100) ∧
        p.fcf = p.nopat + p.depreciation - p.capex - p.change_in_wc := by
  refine ⟨(List.range n).map
      (fun k => projectYear r0 (calculate_historical_averages f) (k + 1)),
    ?_, by simp, ?_⟩
  · simp [project_cash_flows, h]
  · intro k hk
    refine ⟨projectYear r0 (calculate_historical_averages f) (k + 1), ?_,
      rfl, rfl, rfl, rfl, rfl, rfl, rfl, rfl⟩
    simp [List.getElem?_map, List.getElem?_range, hk]

/-- C2 witness: the closed form at the two-period history exC2 with a
three-year horizon. -/
theorem c2_projection_closed_form_witness :
    ∃ l, project_cash_flows exC2 3 = some l ∧ l.length = 3 ∧
      ∀ k, k < 3 → ∃ p, l[k]? = some p ∧
        p.year = k + 1 ∧
        p.revenue =
          100 * (1 + (calculate_historical_averages exC2).revenue_growth) ^ (k + 1) ∧
        p.ebit = p.revenue * (calculate_historical_averages exC2).ebit_margin ∧
        p.nopat = p.ebit * (1 - (calculate_historical_averages exC2).tax_rate) ∧
        p.capex = p.revenue * Averages.capex_ratio (calculate_historical_averages exC2) ∧
        p.depreciation = p.revenue * (3 / 100) ∧
        p.change_in_wc = p.revenue * (2 / 100) ∧
        p.fcf = p.nopat + p.depreciation - p.capex - p.change_in_wc :=
  c2_projection_closed_form exC2 3 100 [80] rfl

/-- C6 counterexample: an input whose MarketSnapshot has zero shares
outstanding on which `calculate_dcf_valuation` does not return value per
share 0: the WACC equals the terminal growth rate, so the terminal-value
division fails (Python raises ZeroDivisionError) and no result is
produced. -/
theorem c6_counterexample :
    exC6m.shares_outstanding = 0 ∧ exC6m.current_price = 0 ∧
    calculate_dcf_valuation (1 / 40) (13 / 200) 5 (1 / 40) exC6 exC6m =
      none := by
  refine ⟨rfl, rfl, by with_unfolding_all decide⟩

/-- C6 (amended): whenever `calculate_dcf_valuation` does return a result
(no failure path of the pipeline fires), non-positive shares outstanding
yields value per share 0 and non-positive current price yields
upside/downside 0 — the two final divisions are guarded and never raise. -/
theorem c6_guarded_per_share_divisions (rf mrp : ℚ) (n : ℕ) (g : ℚ)
    (f : FinancialData) (m : MarketData) (r : ValuationResult)
    (h : calculate_dcf_valuation rf mrp n g f m = some r) :
    (¬m.shares_outstanding > 0 → r.value_per_share = 0) ∧
    (¬m.current_price > 0 → r.upside_downside = 0) := by
  simp only [calculate_dcf_valuation] at h
  repeat' split at h
  any_goals exact Option.noConfusion h
  all_goals rw [Option.some_inj] at h
  all_goals subst h
  all_goals constructor <;> intro hx <;> simp_all

/-- C6 witness: a succeeding valuation with zero shares outstanding and
zero current price returns value per share 0 and upside/downside 0. -/
theorem c6_guarded_per_share_divisions_witness :
    (calculate_dcf_valuation (45 / 1000) (65 / 1000) 1 (25 / 1000) exC6
        exC6wm).map ValuationResult.value_per_share = some 0 ∧
    (calculate_dcf_valuation (45 / 1000) (65 / 1000) 1 (25 / 1000) exC6
        exC6wm).map ValuationResult.upside_downside = some 0 := by
  rcases hE : calculate_dcf_valuation (45 / 1000) (65 / 1000) 1 (25 / 1000)
      exC6 exC6wm with _ | r
  · exact absurd hE (by with_unfolding_all decide)
  · have h := c6_guarded_per_share_divisions (45 / 1000) (65 / 1000) 1
      (25 / 1000) exC6 exC6wm r hE
    simp [h.1 (by norm_num [exC6wm]), h.2 (by norm_num [exC6wm])]

/-- C9 counterexample: a projection horizon of 20 years, outside [3,10],
is not rejected before computation: the whole valuation pipeline runs and
returns a computed result containing a 20-entry projection. -/
theorem c9_counterexample :
    (calculate_dcf_valuation (45 / 1000) (65 / 1000) 20 (25 / 1000) exC9
        exC9m).map (fun r => r.projections.length) = some 20 := by
  with_unfolding_all decide

/-- C9 (amended): the core performs no range validation of the projection
horizon: for every horizon N (inside or outside [3,10]) the projection
step runs and produces exactly N entries; the [3,10] bound exists only as
a client-side hint on the dashboard input widget. -/
theorem c9_no_horizon_validation (f : FinancialData) (n : ℕ) (r0 : ℚ)
    (rest : List ℚ) (h : f.revenue = r0 :: rest) :
    (project_cash_flows f n).map List.length = some n := by
  simp [project_cash_flows, h]

/-- C9 witness: the projection step at the out-of-range horizon 20. -/
theorem c9_no_horizon_validation_witness :
    (project_cash_flows exC9 20).map List.length = some 20 :=
  c9_no_horizon_validation exC9 20 100 [] rfl
